import Mathlib

/-! Shallow embedding, at the tensor-shape level, of the CoCa orchestrator implemented in
keras_cv/models/feature_extractor/CoCa/coca_model.py.

Tensors are represented by their shapes (lists of dimension sizes), since every claim under
study is a claim about shapes, lifecycle state, raised errors, or configuration values.
The orchestrator object is a record holding the hyperparameters, the sub-component
instances created by the constructor, the build state of each sub-component, and the three
learnable auxiliary tensors (present as shapes once allocated, absent before).

The external collaborators (PatchingAndEmbedding, TransformerEncoder, RotaryEmbedding,
TransformerDecoder, AttentionPooling) are repository or library code outside the source
under study; their shape behaviour is modelled from the interface contracts of the spec.
NumPy concatenation, which the forward pass invokes directly, is modelled with its real
argument convention: the first argument is the array sequence and the second is the axis,
and a non-integer array passed as the axis is a type error. -/

namespace CoCaSpec

/-- A tensor shape: the list of its dimension sizes. -/
abbrev Shape := List Nat

/-- A configuration value: the hyperparameters are integers except the two loss weights,
which are real scalars modelled as rationals. -/
inductive CVal
  | natV (n : Nat)
  | ratV (q : ℚ)
  deriving DecidableEq

/-- The hyperparameter set of CoCa.__init__, in the parameter order of the source. -/
structure CoCaConfig where
  img_patch_size : Nat
  encoder_depth : Nat
  encoder_heads : Nat
  encoder_intermediate_dim : Nat
  encoder_width : Nat
  unimodal_decoder_depth : Nat
  multimodal_decoder_depth : Nat
  decoder_intermediate_dim : Nat
  unimodal_decoder_heads : Nat
  multimodal_decoder_heads : Nat
  contrastive_query_length : Nat
  captioning_query_length : Nat
  contrastive_attn_heads : Nat
  captioning_attn_heads : Nat
  contrastive_loss_weight : ℚ
  captioning_loss_weight : ℚ
  deriving DecidableEq

/-- The constructor defaults of CoCa.__init__ (coca_model.py lines 26 to 43). -/
def defaultConfig : CoCaConfig where
  img_patch_size := 18
  encoder_depth := 40
  encoder_heads := 16
  encoder_intermediate_dim := 6144
  encoder_width := 1408
  unimodal_decoder_depth := 18
  multimodal_decoder_depth := 18
  decoder_intermediate_dim := 5632
  unimodal_decoder_heads := 16
  multimodal_decoder_heads := 16
  contrastive_query_length := 1
  captioning_query_length := 256
  contrastive_attn_heads := 16
  captioning_attn_heads := 16
  contrastive_loss_weight := 1 / 2
  captioning_loss_weight := 1 / 2

/-- A PatchingAndEmbedding layer instance: constructed with (project_dim, patch_size). -/
structure PatchingAndEmbedding where
  project_dim : Nat
  patch_size : Nat
  deriving DecidableEq

/-- A TransformerEncoder block instance: constructed with (project_dim, num_heads, mlp_dim). -/
structure TransformerEncoderLayer where
  project_dim : Nat
  num_heads : Nat
  mlp_dim : Nat
  deriving DecidableEq

/-- A TransformerDecoder block instance: constructed with (intermediate_dim, num_heads). -/
structure TransformerDecoderLayer where
  intermediate_dim : Nat
  num_heads : Nat
  deriving DecidableEq

/-- An AttentionPooling layer instance: constructed with (project_dim, num_heads). -/
structure AttentionPooling where
  project_dim : Nat
  num_heads : Nat
  deriving DecidableEq

/-- The CoCa orchestrator object: hyperparameters, sub-component instances created by the
constructor, the shape each sub-component was built with (none before build), the flag the
Keras base-class build sets, and the three learnable auxiliary tensors as optional shapes
(none before allocation). -/
structure CoCa where
  config : CoCaConfig
  image_patching : PatchingAndEmbedding
  image_encoder : List TransformerEncoderLayer
  unimodal_text_decoder : List TransformerDecoderLayer
  multimodal_text_decoder : List TransformerDecoderLayer
  contrastive_attn_pooling : AttentionPooling
  captioning_attn_pooling : AttentionPooling
  base_built : Bool
  image_patching_built : Option Shape
  image_encoder_built : Option Shape
  text_embedding_built : Option Shape
  unimodal_text_decoder_built : Option Shape
  contrastive_attn_pooling_built : Option Shape
  captioning_attn_pooling_built : Option Shape
  multimodal_text_decoder_built : Option (Shape × Shape)
  cls_token : Option Shape
  contrastive_query : Option Shape
  captioning_query : Option Shape
  deriving DecidableEq

/-- CoCa.__init__ (coca_model.py lines 26 to 90): stores the hyperparameters, creates every
sub-component instance (the encoder and the two decoders as stacks of depth-many identical
blocks, per the Sequential comprehensions of lines 69 to 82), and leaves the three
learnable weights as None, to be defined in build. -/
def CoCa.init (cfg : CoCaConfig) : CoCa where
  config := cfg
  image_patching := ⟨cfg.encoder_width, cfg.img_patch_size⟩
  image_encoder :=
    List.replicate cfg.encoder_depth
      ⟨cfg.encoder_width, cfg.encoder_heads, cfg.encoder_intermediate_dim⟩
  unimodal_text_decoder :=
    List.replicate cfg.unimodal_decoder_depth
      ⟨cfg.decoder_intermediate_dim, cfg.unimodal_decoder_heads⟩
  multimodal_text_decoder :=
    List.replicate cfg.multimodal_decoder_depth
      ⟨cfg.decoder_intermediate_dim, cfg.multimodal_decoder_heads⟩
  contrastive_attn_pooling := ⟨cfg.encoder_width, cfg.contrastive_attn_heads⟩
  captioning_attn_pooling := ⟨cfg.encoder_width, cfg.captioning_attn_heads⟩
  base_built := false
  image_patching_built := none
  image_encoder_built := none
  text_embedding_built := none
  unimodal_text_decoder_built := none
  contrastive_attn_pooling_built := none
  captioning_attn_pooling_built := none
  multimodal_text_decoder_built := none
  cls_token := none
  contrastive_query := none
  captioning_query := none

/-- The build-time error conditions of the spec error taxonomy. The code raises ValueError
at three distinct sites of CoCa.build, mapped here to the taxonomy names; alreadyBuiltError
is the error the spec names for a second build and is never produced by the code. -/
inductive BuildError
  | shapeCountError
  | shapeRankError
  | batchMismatchError
  | alreadyBuiltError
  deriving DecidableEq

/-- CoCa.build (coca_model.py lines 135 to 183). The base-class build is invoked first
(line 136), modelled as setting the base flag; validation then raises on fewer than two
shapes (line 139), image rank other than 4 (line 146), text rank other than 2 (line 149),
or differing batch sizes (line 155). On success every sub-component is built with the
shapes of lines 159 to 175 and the three learnable weights are allocated with the shapes
of lines 178 to 183. The returned pair is the object after the call together with the
raised error, if any, so that mutation on failure is observable. -/
def CoCa.build (m : CoCa) (input_shape : List Shape) : CoCa × Option BuildError :=
  if input_shape.length < 2 then
    ({ m with base_built := true }, some BuildError.shapeCountError)
  else
    let images_shape := input_shape.getD 0 []
    let text_shape := input_shape.getD 1 []
    if images_shape.length ≠ 4 then
      ({ m with base_built := true }, some BuildError.shapeRankError)
    else if text_shape.length ≠ 2 then
      ({ m with base_built := true }, some BuildError.shapeRankError)
    else
      let text_dim := text_shape.getD 1 0
      let batch_size := images_shape.getD 0 0
      if batch_size ≠ text_shape.getD 0 0 then
        ({ m with base_built := true }, some BuildError.batchMismatchError)
      else
        let num_patches :=
          images_shape.getD 1 0 / m.config.img_patch_size *
            (images_shape.getD 2 0 / m.config.img_patch_size) + 1
        let text_shape_with_cls_token := text_shape.set 1 (text_shape.getD 1 0 + 1)
        ({ m with
            base_built := true
            image_patching_built := some images_shape
            image_encoder_built := some [batch_size, m.config.encoder_width, num_patches]
            text_embedding_built := some text_shape_with_cls_token
            unimodal_text_decoder_built := some text_shape_with_cls_token
            contrastive_attn_pooling_built :=
              some [batch_size, num_patches, m.config.encoder_width]
            captioning_attn_pooling_built :=
              some [batch_size, num_patches, m.config.encoder_width]
            multimodal_text_decoder_built :=
              some ([batch_size, m.config.encoder_width, m.config.captioning_query_length],
                text_shape_with_cls_token)
            cls_token := some [batch_size, 1, text_dim]
            contrastive_query :=
              some [batch_size, m.config.encoder_width, m.config.contrastive_query_length]
            captioning_query :=
              some [batch_size, m.config.encoder_width, m.config.captioning_query_length] },
          none)

/-- Errors raised by NumPy concatenation. -/
inductive NpError
  | typeError
  | valueError
  deriving DecidableEq

/-- The first argument of np.concatenate: either a tuple of arrays or a single array,
which NumPy iterates along its leading axis. -/
inductive NpSeqArg
  | tuple (arrays : List Shape)
  | single (a : Shape)
  deriving DecidableEq

/-- The second, axis argument of np.concatenate: an integer, an array (as happens when a
tensor is passed positionally where the axis is expected), or omitted (defaulting to 0). -/
inductive NpAxisArg
  | intAxis (a : Nat)
  | arrayAxis (a : Shape)
  | defaultAxis
  deriving DecidableEq

/-- Two shapes admit concatenation along the given axis when they have equal rank and agree
on every dimension other than that axis. -/
def shapesCompatible (s t : Shape) (axis : Nat) : Bool :=
  s.length == t.length &&
    (List.range s.length).all fun i => i == axis || s.getD i 0 == t.getD i 0

/-- Shape semantics of concatenating a list of arrays along an integer axis: the inputs
must be non-empty, of equal rank, with the axis in range and all other dimensions equal;
the result replaces the axis dimension by the sum of the axis dimensions. Any violation is
a ValueError. -/
def concatShapes (shapes : List Shape) (axis : Nat) : Except NpError Shape :=
  match shapes with
  | [] => Except.error NpError.valueError
  | s :: rest =>
    if axis < s.length && rest.all (fun t => shapesCompatible s t axis) then
      Except.ok (s.set axis ((shapes.map fun t => t.getD axis 0).sum))
    else
      Except.error NpError.valueError

/-- The array sequence denoted by the first np.concatenate argument: a tuple denotes its
members; a single array of shape d :: ds denotes its d subarrays of shape ds. -/
def seqShapes : NpSeqArg → List Shape
  | NpSeqArg.tuple ts => ts
  | NpSeqArg.single s => List.replicate (s.getD 0 0) s.tail

/-- np.concatenate at the shape level. A float array passed as the axis argument is not
convertible to an integer index, so NumPy raises TypeError before looking at the arrays;
otherwise the integer axis (default 0) is used. -/
def np_concatenate (seq : NpSeqArg) (axis : NpAxisArg) : Except NpError Shape :=
  match axis with
  | NpAxisArg.arrayAxis _ => Except.error NpError.typeError
  | NpAxisArg.defaultAxis => concatShapes (seqShapes seq) 0
  | NpAxisArg.intAxis a => concatShapes (seqShapes seq) a

/-- Line 208 of coca_model.py: np.concatenate(texts, self.cls_token). The classification
token is the second positional argument and therefore lands in the axis parameter. At the
shape level the raw tensors are their shapes. -/
def text_tokens_line (texts cls_token : Shape) : Except NpError Shape :=
  np_concatenate (NpSeqArg.single texts) (NpAxisArg.arrayAxis cls_token)

/-- Line 209 of coca_model.py: np.concatenate((np.ones_like(texts),
np.zeros_like(self.cls_token))). ones_like and zeros_like preserve shape, and the axis is
omitted, so NumPy uses axis 0. -/
def mask_line (texts cls_token : Shape) : Except NpError Shape :=
  np_concatenate (NpSeqArg.tuple [texts, cls_token]) NpAxisArg.defaultAxis

/-- Errors observable from CoCa.call: the NotBuiltError the spec names (never produced by
the code, which has no built-state guard), the error produced when a still-unallocated
(None) weight is passed to a layer, and errors propagated from np.concatenate. -/
inductive CallError
  | notBuiltError
  | noneWeightError
  | npError (e : NpError)
  deriving DecidableEq

/-- Modelled from the spec: the PatchEmbedder maps an image batch to a patch sequence of
num_patches + 1 positions at the projection width (spec section 4.1; the source is the
external PatchingAndEmbedding layer, not part of the code under study). The axis order
follows the comment at line 198 of coca_model.py. -/
def patching_apply (p : PatchingAndEmbedding) (images : Shape) : Shape :=
  [images.getD 0 0, p.project_dim,
    images.getD 1 0 / p.patch_size * (images.getD 2 0 / p.patch_size) + 1]

/-- Modelled from the spec: each encoder block preserves sequence length and feature width
(spec section 2), so the stack maps a shape to itself block by block. -/
def encoder_stack_apply (blocks : List TransformerEncoderLayer) (s : Shape) : Shape :=
  blocks.foldl (fun acc _ => acc) s

/-- Modelled from the spec: AttentionPooler.apply(query, kv) returns a pooled tensor of
shape (batch, feature_width, query_length) (spec section 6). -/
def attention_pooling_apply (p : AttentionPooling) (query kv : Shape) : Shape :=
  [kv.getD 0 0, p.project_dim, query.getD 2 0]

/-- Modelled from the spec: the TextEmbedder maps token sequences to embedded vectors of
the same shape (rotary embedding preserves shape). -/
def rotary_apply (s : Shape) : Shape :=
  s

/-- Modelled from the spec: each self-attention decoder block preserves the shape of its
sequence input (spec section 6). -/
def decoder_stack_apply (blocks : List TransformerDecoderLayer) (s mask : Shape) : Shape :=
  blocks.foldl (fun acc _ => acc) s

/-- Modelled from the spec: each cross-attention decoder block preserves the shape of its
query sequence input (spec section 6). -/
def multimodal_decoder_apply (blocks : List TransformerDecoderLayer)
    (s encoder_sequence mask : Shape) : Shape :=
  blocks.foldl (fun acc _ => acc) s

/-- CoCa.call (coca_model.py lines 185 to 220): patch and encode the images (198, 199);
pool with the captioning query (205; the contrastive pooling of line 202 is commented out
in the source and never invoked); concatenate the texts with the classification token
(208) and build the mask (209); embed and decode the text (212, 213); trim the last
sequence position and run the multimodal decoder (216 to 218). A weight that is still
None (unbuilt model) fails at its point of use; there is no built-state guard. -/
def CoCa.call (m : CoCa) (images texts : Shape) : Except CallError Shape :=
  let img_encoding := patching_apply m.image_patching images
  let img_encoding2 := encoder_stack_apply m.image_encoder img_encoding
  match m.captioning_query with
  | none => Except.error CallError.noneWeightError
  | some capQ =>
    let captioning_feature := attention_pooling_apply m.captioning_attn_pooling capQ img_encoding2
    match m.cls_token with
    | none => Except.error CallError.noneWeightError
    | some cls =>
      match text_tokens_line texts cls with
      | Except.error e => Except.error (CallError.npError e)
      | Except.ok text_tokens =>
        match mask_line texts cls with
        | Except.error e => Except.error (CallError.npError e)
        | Except.ok mask =>
          let embed_text := rotary_apply text_tokens
          let unimodal_out := decoder_stack_apply m.unimodal_text_decoder embed_text mask
          let trimmed := unimodal_out.set 1 (unimodal_out.getD 1 0 - 1)
          Except.ok
            (multimodal_decoder_apply m.multimodal_text_decoder trimmed captioning_feature mask)

/-- CoCa.get_config (coca_model.py lines 222 to 244): the configuration mapping, with the
keys in the order of the update call of the source. -/
def CoCa.get_config (m : CoCa) : List (String × CVal) :=
  [("img_patch_size", CVal.natV m.config.img_patch_size),
   ("encoder_depth", CVal.natV m.config.encoder_depth),
   ("encoder_heads", CVal.natV m.config.encoder_heads),
   ("encoder_width", CVal.natV m.config.encoder_width),
   ("encoder_intermediate_dim", CVal.natV m.config.encoder_intermediate_dim),
   ("unimodal_decoder_depth", CVal.natV m.config.unimodal_decoder_depth),
   ("multimodal_decoder_depth", CVal.natV m.config.multimodal_decoder_depth),
   ("decoder_intermediate_dim", CVal.natV m.config.decoder_intermediate_dim),
   ("unimodal_decoder_heads", CVal.natV m.config.unimodal_decoder_heads),
   ("multimodal_decoder_heads", CVal.natV m.config.multimodal_decoder_heads),
   ("contrastive_query_length", CVal.natV m.config.contrastive_query_length),
   ("contrastive_attn_heads", CVal.natV m.config.contrastive_attn_heads),
   ("contrastive_loss_weight", CVal.ratV m.config.contrastive_loss_weight),
   ("captioning_query_length", CVal.natV m.config.captioning_query_length),
   ("captioning_attn_heads", CVal.natV m.config.captioning_attn_heads),
   ("captioning_loss_weight", CVal.ratV m.config.captioning_loss_weight)]

/-- Look up an integer hyperparameter in a configuration mapping. -/
def lookupNat (c : List (String × CVal)) (k : String) : Option Nat :=
  match c.lookup k with
  | some (CVal.natV n) => some n
  | _ => none

/-- Look up a rational hyperparameter in a configuration mapping. -/
def lookupRat (c : List (String × CVal)) (k : String) : Option ℚ :=
  match c.lookup k with
  | some (CVal.ratV q) => some q
  | _ => none

/-- The integer-valued hyperparameter names. -/
def natKeys : List String :=
  ["img_patch_size", "encoder_depth", "encoder_heads", "encoder_intermediate_dim",
   "encoder_width", "unimodal_decoder_depth", "multimodal_decoder_depth",
   "decoder_intermediate_dim", "unimodal_decoder_heads", "multimodal_decoder_heads",
   "contrastive_query_length", "captioning_query_length", "contrastive_attn_heads",
   "captioning_attn_heads"]

/-- The rational-valued hyperparameter names. -/
def ratKeys : List String :=
  ["contrastive_loss_weight", "captioning_loss_weight"]

/-- Modelled from the spec: from_config is inherited from the Task base class, which is
repository code outside the file under study; per spec section 4.3 it accepts the keys
produced by get_config and constructs an equivalent unbuilt instance by passing the mapped
values to the constructor. A missing or ill-typed hyperparameter yields none (ConfigError). -/
def CoCa.from_config (c : List (String × CVal)) : Option CoCa :=
  if (natKeys.all fun k => (lookupNat c k).isSome) &&
      (ratKeys.all fun k => (lookupRat c k).isSome) then
    some (CoCa.init
      { img_patch_size := (lookupNat c "img_patch_size").getD 0
        encoder_depth := (lookupNat c "encoder_depth").getD 0
        encoder_heads := (lookupNat c "encoder_heads").getD 0
        encoder_intermediate_dim := (lookupNat c "encoder_intermediate_dim").getD 0
        encoder_width := (lookupNat c "encoder_width").getD 0
        unimodal_decoder_depth := (lookupNat c "unimodal_decoder_depth").getD 0
        multimodal_decoder_depth := (lookupNat c "multimodal_decoder_depth").getD 0
        decoder_intermediate_dim := (lookupNat c "decoder_intermediate_dim").getD 0
        unimodal_decoder_heads := (lookupNat c "unimodal_decoder_heads").getD 0
        multimodal_decoder_heads := (lookupNat c "multimodal_decoder_heads").getD 0
        contrastive_query_length := (lookupNat c "contrastive_query_length").getD 0
        captioning_query_length := (lookupNat c "captioning_query_length").getD 0
        contrastive_attn_heads := (lookupNat c "contrastive_attn_heads").getD 0
        captioning_attn_heads := (lookupNat c "captioning_attn_heads").getD 0
        contrastive_loss_weight := (lookupRat c "contrastive_loss_weight").getD 0
        captioning_loss_weight := (lookupRat c "captioning_loss_weight").getD 0 })
  else none

/-- The spec lifecycle state built (section 3): every sub-component is built and all three
auxiliary tensors exist. -/
def builtState (m : CoCa) : Bool :=
  m.image_patching_built.isSome && m.image_encoder_built.isSome &&
    m.text_embedding_built.isSome && m.unimodal_text_decoder_built.isSome &&
    m.contrastive_attn_pooling_built.isSome && m.captioning_attn_pooling_built.isSome &&
    m.multimodal_text_decoder_built.isSome && m.cls_token.isSome &&
    m.contrastive_query.isSome && m.captioning_query.isSome

/-- The spec lifecycle state unbuilt (section 3): no sub-component is built and no
auxiliary tensor exists. -/
def unbuiltState (m : CoCa) : Bool :=
  m.image_patching_built.isNone && m.image_encoder_built.isNone &&
    m.text_embedding_built.isNone && m.unimodal_text_decoder_built.isNone &&
    m.contrastive_attn_pooling_built.isNone && m.captioning_attn_pooling_built.isNone &&
    m.multimodal_text_decoder_built.isNone && m.cls_token.isNone &&
    m.contrastive_query.isNone && m.captioning_query.isNone

/-- The hyperparameter names of the constructor, in get_config order. -/
def hyperparameterKeys : List String :=
  ["img_patch_size", "encoder_depth", "encoder_heads", "encoder_width",
   "encoder_intermediate_dim", "unimodal_decoder_depth", "multimodal_decoder_depth",
   "decoder_intermediate_dim", "unimodal_decoder_heads", "multimodal_decoder_heads",
   "contrastive_query_length", "contrastive_attn_heads", "contrastive_loss_weight",
   "captioning_query_length", "captioning_attn_heads", "captioning_loss_weight"]

/-- The end-to-end configuration of the spec: patch size 16 and all other defaults. -/
def cfg16 : CoCaConfig :=
  { defaultConfig with img_patch_size := 16 }

/-- The orchestrator of the end-to-end configuration after a successful build with image
shape (2, 224, 224, 3) and text shape (2, 32). -/
def builtCfg16 : CoCa :=
  ((CoCa.init cfg16).build [[2, 224, 224, 3], [2, 32]]).1

/-- The default orchestrator after a successful build with image shape (2, 224, 224, 3)
and text shape (2, 32). -/
def builtDefault : CoCa :=
  ((CoCa.init defaultConfig).build [[2, 224, 224, 3], [2, 32]]).1

/-- C1: the spec states that call forms text_tokens by concatenating the raw texts tensor
and the classification token along the sequence axis, with a parallel mask concatenating
ones_like(texts) and zeros_like(classification_token) along the same axis. The code does
neither: at line 208 the classification token is the second positional argument of
np.concatenate and therefore lands in the axis parameter, raising TypeError, and the mask
concatenation of line 209 omits the axis, so NumPy uses axis 0 (the batch axis) and raises
ValueError on the rank mismatch. Evaluated at the conforming shapes texts = (2, 32) and
cls_token = (2, 1, 32). -/
theorem C1_text_concat_raises :
    text_tokens_line [2, 32] [2, 1, 32] = Except.error NpError.typeError ∧
      mask_line [2, 32] [2, 1, 32] = Except.error NpError.valueError :=
  ⟨rfl, rfl⟩

/-- C2: the spec states that with img_patch_size = 16, after building with images shape
(2, 224, 224, 3) and texts shape (2, 32), call returns a (2, 32, captioning_query_length)
tensor without raising. The build does succeed, but call raises: the forward pass reaches
the text-token concatenation of line 208 and fails with the TypeError of C1, so no output
is produced. (The contrastive pooler is indeed never evaluated: line 202 is commented out
in the source and the model of call never invokes contrastive_attn_pooling.) -/
theorem C2_call_raises :
    ((CoCa.init cfg16).build [[2, 224, 224, 3], [2, 32]]).2 = none ∧
      builtCfg16.call [2, 224, 224, 3] [2, 32] =
        Except.error (CallError.npError NpError.typeError) :=
  ⟨rfl, rfl⟩

/-- C3 counterexample: the claim says build fails with a shape-count error on every input
shape list of length other than two, including longer lists. The code only checks
len(input_shape) < 2, so a list of three shapes whose first two are valid builds
successfully (the third is ignored). -/
theorem C3_counterexample :
    ([[2, 224, 224, 3], [2, 32], [2, 5]] : List Shape).length ≠ 2 ∧
      ((CoCa.init defaultConfig).build [[2, 224, 224, 3], [2, 32], [2, 5]]).2 = none :=
  ⟨by decide, rfl⟩

/-- C3 (amended): build fails with the shape-count error exactly when fewer than two shape
descriptors are supplied; shape lists of length two or more pass the count check and any
descriptors beyond the first two are ignored. -/
theorem C3_shape_count_iff (m : CoCa) (input_shape : List Shape) :
    (m.build input_shape).2 = some BuildError.shapeCountError ↔ input_shape.length < 2 := by
  simp only [CoCa.build]
  split_ifs <;> simp_all

/-- C4: for every hyperparameter set and every valid input pair of an images shape
(b, h, w, c) and a text shape (b, s) with matching batch, build succeeds and allocates the
three learnable auxiliary tensors with shapes cls_token = (b, 1, text feature width),
contrastive_query = (b, encoder_width, contrastive_query_length) and captioning_query =
(b, encoder_width, captioning_query_length), where the text feature width is the trailing
entry s of the text shape (the reading forced by line 153 of the source, compare C10). -/
theorem C4_build_allocates_weights (cfg : CoCaConfig) (b h w c s : Nat) :
    ((CoCa.init cfg).build [[b, h, w, c], [b, s]]).2 = none ∧
      ((CoCa.init cfg).build [[b, h, w, c], [b, s]]).1.cls_token = some [b, 1, s] ∧
      ((CoCa.init cfg).build [[b, h, w, c], [b, s]]).1.contrastive_query =
        some [b, cfg.encoder_width, cfg.contrastive_query_length] ∧
      ((CoCa.init cfg).build [[b, h, w, c], [b, s]]).1.captioning_query =
        some [b, cfg.encoder_width, cfg.captioning_query_length] := by
  refine ⟨?_, ?_, ?_, ?_⟩ <;> simp [CoCa.build, CoCa.init]

/-- C5: whenever build raises a validation error, no sub-component is built and no
auxiliary tensor is allocated by the failed call: every build-state field and every weight
of the returned object equals its prior value, and the lifecycle state in the sense of the
spec (section 3: built when all sub-components and tensors exist, unbuilt when none do) is
exactly what it was. Only the Keras base-class flag, set by the unconditional
super().build of line 136 before any validation, is outside this notion of state. -/
theorem C5_build_failure_no_mutation (m : CoCa) (input_shape : List Shape) (e : BuildError)
    (h : (m.build input_shape).2 = some e) :
    builtState (m.build input_shape).1 = builtState m ∧
      unbuiltState (m.build input_shape).1 = unbuiltState m ∧
      (m.build input_shape).1.image_patching_built = m.image_patching_built ∧
      (m.build input_shape).1.image_encoder_built = m.image_encoder_built ∧
      (m.build input_shape).1.text_embedding_built = m.text_embedding_built ∧
      (m.build input_shape).1.unimodal_text_decoder_built = m.unimodal_text_decoder_built ∧
      (m.build input_shape).1.contrastive_attn_pooling_built =
        m.contrastive_attn_pooling_built ∧
      (m.build input_shape).1.captioning_attn_pooling_built =
        m.captioning_attn_pooling_built ∧
      (m.build input_shape).1.multimodal_text_decoder_built =
        m.multimodal_text_decoder_built ∧
      (m.build input_shape).1.cls_token = m.cls_token ∧
      (m.build input_shape).1.contrastive_query = m.contrastive_query ∧
      (m.build input_shape).1.captioning_query = m.captioning_query := by
  simp only [CoCa.build] at h ⊢
  split_ifs at h ⊢ <;> simp_all [builtState, unbuiltState]

/-- C5 witness: the no-mutation theorem applied to the default orchestrator and a rank-3
image shape, which fails with the shape-rank error. -/
theorem C5_build_failure_no_mutation_witness :
    builtState ((CoCa.init defaultConfig).build [[2, 224, 224], [2, 32]]).1 =
        builtState (CoCa.init defaultConfig) ∧
      unbuiltState ((CoCa.init defaultConfig).build [[2, 224, 224], [2, 32]]).1 =
        unbuiltState (CoCa.init defaultConfig) ∧
      ((CoCa.init defaultConfig).build [[2, 224, 224], [2, 32]]).1.image_patching_built =
        (CoCa.init defaultConfig).image_patching_built ∧
      ((CoCa.init defaultConfig).build [[2, 224, 224], [2, 32]]).1.image_encoder_built =
        (CoCa.init defaultConfig).image_encoder_built ∧
      ((CoCa.init defaultConfig).build [[2, 224, 224], [2, 32]]).1.text_embedding_built =
        (CoCa.init defaultConfig).text_embedding_built ∧
      ((CoCa.init defaultConfig).build
          [[2, 224, 224], [2, 32]]).1.unimodal_text_decoder_built =
        (CoCa.init defaultConfig).unimodal_text_decoder_built ∧
      ((CoCa.init defaultConfig).build
          [[2, 224, 224], [2, 32]]).1.contrastive_attn_pooling_built =
        (CoCa.init defaultConfig).contrastive_attn_pooling_built ∧
      ((CoCa.init defaultConfig).build
          [[2, 224, 224], [2, 32]]).1.captioning_attn_pooling_built =
        (CoCa.init defaultConfig).captioning_attn_pooling_built ∧
      ((CoCa.init defaultConfig).build
          [[2, 224, 224], [2, 32]]).1.multimodal_text_decoder_built =
        (CoCa.init defaultConfig).multimodal_text_decoder_built ∧
      ((CoCa.init defaultConfig).build [[2, 224, 224], [2, 32]]).1.cls_token =
        (CoCa.init defaultConfig).cls_token ∧
      ((CoCa.init defaultConfig).build [[2, 224, 224], [2, 32]]).1.contrastive_query =
        (CoCa.init defaultConfig).contrastive_query ∧
      ((CoCa.init defaultConfig).build [[2, 224, 224], [2, 32]]).1.captioning_query =
        (CoCa.init defaultConfig).captioning_query :=
  C5_build_failure_no_mutation (CoCa.init defaultConfig) [[2, 224, 224], [2, 32]]
    BuildError.shapeRankError rfl

/-- C6 counterexample: the claim says call on an unbuilt orchestrator fails with the
not-built error. The code has no built-state guard: on the freshly constructed default
orchestrator, call proceeds into the forward pass and fails only when the still-None
captioning query is passed to the pooling layer, which is a different error. -/
theorem C6_counterexample :
    (CoCa.init defaultConfig).call [2, 224, 224, 3] [2, 32] ≠
      Except.error CallError.notBuiltError := by
  intro hc
  exact CallError.noConfusion (Except.error.inj hc)

/-- C6 (amended): call performs no built-state check; invoked on an unbuilt orchestrator
with any inputs it proceeds with the forward pass (patching and encoding the images) and
fails with the error arising from the unallocated (None) captioning-query weight at its
point of use, not with a not-built error. -/
theorem C6_unbuilt_call_no_guard (cfg : CoCaConfig) (images texts : Shape) :
    (CoCa.init cfg).call images texts = Except.error CallError.noneWeightError :=
  rfl

/-- C7 counterexample: the claim says a second build fails with the already-built error.
The code has no such guard: on the already built default orchestrator a second build with
the same shapes succeeds (and reruns initialization). -/
theorem C7_counterexample :
    builtState builtDefault = true ∧
      (builtDefault.build [[2, 224, 224, 3], [2, 32]]).2 = none :=
  ⟨rfl, rfl⟩

/-- C7 (amended): build performs no already-built check; invoking build again on a built
orchestrator re-runs validation and sub-component building and re-assigns the three
auxiliary tensors, succeeding with the same allocated shapes instead of raising. -/
theorem C7_rebuild_no_guard (cfg : CoCaConfig) (b h w c s : Nat) :
    ((((CoCa.init cfg).build [[b, h, w, c], [b, s]]).1.build
        [[b, h, w, c], [b, s]]).2 = none) ∧
      ((((CoCa.init cfg).build [[b, h, w, c], [b, s]]).1.build
          [[b, h, w, c], [b, s]]).1.cls_token = some [b, 1, s]) ∧
      ((((CoCa.init cfg).build [[b, h, w, c], [b, s]]).1.build
          [[b, h, w, c], [b, s]]).1.contrastive_query =
        some [b, cfg.encoder_width, cfg.contrastive_query_length]) ∧
      ((((CoCa.init cfg).build [[b, h, w, c], [b, s]]).1.build
          [[b, h, w, c], [b, s]]).1.captioning_query =
        some [b, cfg.encoder_width, cfg.captioning_query_length]) := by
  refine ⟨?_, ?_, ?_, ?_⟩ <;> simp [CoCa.build, CoCa.init]

/-- C8 counterexample: the claim says that before the first successful build no
sub-component instance exists. The constructor itself creates every sub-component
instance: the freshly constructed default orchestrator is unbuilt in the spec sense (no
sub-component built, no auxiliary tensor allocated) yet already owns its forty image
encoder block instances. -/
theorem C8_counterexample :
    unbuiltState (CoCa.init defaultConfig) = true ∧
      (CoCa.init defaultConfig).image_encoder.length = 40 :=
  ⟨rfl, rfl⟩

/-- C8 (amended): sub-component instances are created at construction time, with the
encoder and decoder stacks at their configured depths; the unbuilt state is characterized
by no sub-component being built and no auxiliary tensor being allocated, and a successful
build transitions to the state where every sub-component is built and all three tensors
exist. -/
theorem C8_lifecycle (cfg : CoCaConfig) (b h w c s : Nat) :
    (CoCa.init cfg).image_encoder.length = cfg.encoder_depth ∧
      (CoCa.init cfg).unimodal_text_decoder.length = cfg.unimodal_decoder_depth ∧
      (CoCa.init cfg).multimodal_text_decoder.length = cfg.multimodal_decoder_depth ∧
      unbuiltState (CoCa.init cfg) = true ∧
      builtState (((CoCa.init cfg).build [[b, h, w, c], [b, s]]).1) = true := by
  refine ⟨?_, ?_, ?_, ?_, ?_⟩ <;>
    simp [CoCa.init, CoCa.build, unbuiltState, builtState]

/-- C9: for every hyperparameter set, reconstructing through from_config applied to
get_config yields an instance whose get_config output is identical key-for-key and
value-for-value to the original, and the mapping contains every constructor
hyperparameter (its key list is exactly the sixteen hyperparameter names). -/
theorem C9_config_round_trip (cfg : CoCaConfig) :
    (CoCa.from_config ((CoCa.init cfg).get_config)).map CoCa.get_config =
        some ((CoCa.init cfg).get_config) ∧
      ((CoCa.init cfg).get_config).map Prod.fst = hyperparameterKeys :=
  ⟨rfl, rfl⟩

/-- C10: after every successful build, the trailing dimension of the allocated
classification token is the second entry of the text shape, the input sequence length, so
the token has shape (batch, 1, sequence_length); no independently configured text feature
width is involved. -/
theorem C10_cls_token_last_dim (m : CoCa) (input_shape : List Shape)
    (h : (m.build input_shape).2 = none) :
    (m.build input_shape).1.cls_token =
      some [(input_shape.getD 0 []).getD 0 0, 1, (input_shape.getD 1 []).getD 1 0] := by
  simp only [CoCa.build] at h ⊢
  split_ifs at h ⊢ <;> simp_all

/-- C10 witness: the classification-token theorem applied to the default orchestrator
built with image shape (2, 224, 224, 3) and text shape (2, 32). -/
theorem C10_cls_token_last_dim_witness :
    ((CoCa.init defaultConfig).build [[2, 224, 224, 3], [2, 32]]).1.cls_token =
      some [([[2, 224, 224, 3], [2, 32]].getD 0 []).getD 0 0, 1,
        ([[2, 224, 224, 3], [2, 32]].getD 1 []).getD 1 0] :=
  C10_cls_token_last_dim (CoCa.init defaultConfig) [[2, 224, 224, 3], [2, 32]] rfl

end CoCaSpec
